import Mathlib

/-!
# Verification of the `viam-piezo` buzzer driver (`src/main.py`)

Shallow embedding of the `Piezo` component: configuration validation,
reconfiguration, `sound_buzzer`, `play_harry_potter` and `do_command`.

Hardware interaction is modelled by an *oracle* `ok : ℕ → Option String`
giving, for the k-th hardware call issued during a run, either success
(`none`) or the message of the exception that call raises (`some msg`).
`asyncio.sleep` cannot fail and does not consult the oracle.  Every run
returns an explicit trace of events (hardware calls, each tagged with
whether it succeeded, and sleeps), so trace properties of the Python code
become equalities on lists.  Python numbers are modelled as `ℚ`; Python's
`int()` truncation is `pyInt`.  All operations are total Lean functions:
the Python methods catch every exception and return strings, which the
embedding reflects by returning the same strings.
-/

namespace Piezo

/-- A hardware call issued to the board / GPIO pin capability. -/
inductive HWCall where
  | gpioPinByName (name : String)
  | setPwmFrequency (hz : ℤ)
  | setPwm (duty : ℚ)
  deriving DecidableEq, Repr

/-- One observable event of a run: a hardware call (tagged with whether the
board accepted it) or a timed suspension. -/
inductive Event where
  | call (c : HWCall) (success : Bool)
  | sleep (t : ℚ)
  deriving DecidableEq, Repr

/-- Python `int(q)` on a rational: truncation toward zero. -/
def pyInt (q : ℚ) : ℤ :=
  if q < 0 then -Rat.floor (-q) else Rat.floor q

/-- Rendering of a rational into the `Got: {x}` part of the error messages
(a stand-in for Python's number formatting; no claim depends on its exact
shape). -/
def ratStr (q : ℚ) : String :=
  if q.den = 1 then toString q.num else toString q.num ++ "/" ++ toString q.den

/-- Does the character list `needle` occur at the head of `hay`? -/
def firstMatches : List Char → List Char → Bool
  | [], _ => true
  | _ :: _, [] => false
  | a :: as, b :: bs => a = b && firstMatches as bs

/-- Does `needle` occur contiguously anywhere in `hay`? -/
def hasSub (needle : List Char) : List Char → Bool
  | [] => firstMatches needle []
  | b :: bs => firstMatches needle (b :: bs) || hasSub needle bs

/-- `strContains hay needle`: `needle` occurs as a substring of `hay`. -/
def strContains (hay needle : String) : Bool :=
  hasSub needle.data hay.data

/-- The string `sound_buzzer` returns when it catches an exception with
message `msg` (Python `f"Error in sound_buzzer: {e}"`). -/
def sbErr (msg : String) : String := "Error in sound_buzzer: " ++ msg

/-- Shift a hardware oracle past the first `n` calls. -/
def shiftOracle (ok : ℕ → Option String) (n : ℕ) : ℕ → Option String :=
  fun k => ok (n + k)

/-- Number of hardware calls in a trace (sleeps do not consume the oracle). -/
def numCalls (tr : List Event) : ℕ :=
  tr.countP fun e => match e with
    | .call _ _ => true
    | .sleep _ => false

/-- The all-success board: every hardware call is accepted. -/
def allOk : ℕ → Option String := fun _ => none

/-- Embedding of `Piezo.sound_buzzer` (src/main.py lines 63-100).  Returns
the string result together with the event trace.  `pin` is the stored
`self.pin`, `ok` the board's behaviour, `timeout` the accepted-but-unused
keyword argument.  Validation happens before any hardware call, in source
order (frequency, then duration, then duty cycle); the raised `ValueError`s
are caught by the method's own `except` and turned into strings. -/
def sound_buzzer (pin : String) (ok : ℕ → Option String)
    (frequency duration duty_cycle : ℚ) (timeout : Option ℚ) :
    String × List Event :=
  if frequency ≤ 0 then
    (sbErr ("Frequency must be a positive number. Got: " ++ ratStr frequency), [])
  else if duration ≤ 0 then
    (sbErr ("Duration must be a positive number. Got: " ++ ratStr duration), [])
  else if ¬ (0 ≤ duty_cycle ∧ duty_cycle ≤ 1) then
    (sbErr ("Duty cycle must be between 0 and 1. Got: " ++ ratStr duty_cycle), [])
  else
    let f : ℤ := pyInt frequency
    match ok 0 with
    | some msg => (sbErr msg, [.call (.gpioPinByName pin) false])
    | none =>
      match ok 1 with
      | some msg =>
          (sbErr msg,
           [.call (.gpioPinByName pin) true, .call (.setPwmFrequency f) false])
      | none =>
        match ok 2 with
        | some msg =>
            (sbErr msg,
             [.call (.gpioPinByName pin) true, .call (.setPwmFrequency f) true,
              .call (.setPwm duty_cycle) false])
        | none =>
          match ok 3 with
          | some msg =>
              (sbErr msg,
               [.call (.gpioPinByName pin) true, .call (.setPwmFrequency f) true,
                .call (.setPwm duty_cycle) true, .sleep duration,
                .call (.setPwm 0) false])
          | none =>
              ("Buzzer sounded successfully.",
               [.call (.gpioPinByName pin) true, .call (.setPwmFrequency f) true,
                .call (.setPwm duty_cycle) true, .sleep duration,
                .call (.setPwm 0) true])

/-- Is an event a *successful* `set_pwm(0.0)` (the call that silences the
buzzer)? -/
def silencingEvent : Event → Bool
  | .call (.setPwm q) true => q = 0
  | _ => false

/-- The hardcoded melody table of `play_harry_potter` (frequencies in Hz). -/
def melody : List ℚ :=
  [622, 740, 784, 740, 622, 784, 740, 622, 740, 784, 622, 740, 622, 587, 622, 659,
   740, 622, 740, 784, 622, 587]

/-- The hardcoded rhythm table of `play_harry_potter` (durations in seconds). -/
def rhythm : List ℚ :=
  [2/5, 2/5, 2/5, 2/5, 2/5, 2/5, 4/5, 2/5, 2/5, 2/5, 2/5, 2/5, 2/5, 2/5, 2/5, 4/5,
   2/5, 2/5, 2/5, 2/5, 2/5, 4/5]

/-- The per-note loop body of `play_harry_potter`: for each `(frequency,
duration)` pair of `zip(melody, rhythm)`, in order, issue
`set_pwm_frequency(int(frequency))`, `set_pwm(0.5)`, sleep `duration`,
`set_pwm(0.0)`, sleep `0.1`.  The first failing call aborts the loop with
its exception message. -/
def playNotes (ok : ℕ → Option String) :
    List (ℚ × ℚ) → Option String × List Event
  | [] => (none, [])
  | (f, d) :: rest =>
    match ok 0 with
    | some msg => (some msg, [.call (.setPwmFrequency (pyInt f)) false])
    | none =>
      match ok 1 with
      | some msg =>
          (some msg,
           [.call (.setPwmFrequency (pyInt f)) true, .call (.setPwm (1/2)) false])
      | none =>
        match ok 2 with
        | some msg =>
            (some msg,
             [.call (.setPwmFrequency (pyInt f)) true, .call (.setPwm (1/2)) true,
              .sleep d, .call (.setPwm 0) false])
        | none =>
            let r := playNotes (shiftOracle ok 3) rest
            (r.1,
             [.call (.setPwmFrequency (pyInt f)) true, .call (.setPwm (1/2)) true,
              .sleep d, .call (.setPwm 0) true, .sleep (1/10)] ++ r.2)

/-- Embedding of `Piezo.play_harry_potter` (src/main.py lines 139-172).
Acquires the GPIO pin once, then runs the note loop; any exception is
caught and only logged, so the method itself never raises.  The returned
`Option String` is the logged error message, if any. -/
def play_harry_potter (pin : String) (ok : ℕ → Option String) :
    Option String × List Event :=
  match ok 0 with
  | some msg => (some msg, [.call (.gpioPinByName pin) false])
  | none =>
      let r := playNotes (shiftOracle ok 1) (melody.zip rhythm)
      (r.1, .call (.gpioPinByName pin) true :: r.2)

/-- Arguments of a `do_command` entry: a mapping from argument names to
numeric values (the model covers numeric-valued argument mappings, which
is what every claim quantifies over). -/
def Args : Type := List (String × ℚ)

/-- Python `args.get(key, default)` on an argument mapping. -/
def argGet (args : Args) (k : String) (dflt : ℚ) : ℚ :=
  match List.lookup k args with
  | some v => v
  | none => dflt

/-- Python dict insertion/update: overwrite an existing key in place,
otherwise append at the end (insertion order preserved). -/
def dictSet (d : List (String × String)) (k v : String) :
    List (String × String) :=
  if (List.lookup k d).isSome then
    d.map fun p => if p.1 = k then (k, v) else p
  else
    d ++ [(k, v)]

/-- The string `do_command` records for a `sound_buzzer` entry (Python
`f"Buzzer activated: {frequency}Hz for {duration}s with {duty_cycle*100}% duty cycle."`).
It is recorded unconditionally: the string returned by `sound_buzzer`
(success or error) is discarded, and `sound_buzzer` never raises. -/
def buzzerActivatedMsg (frequency duration duty_cycle : ℚ) : String :=
  "Buzzer activated: " ++ ratStr frequency ++ "Hz for " ++ ratStr duration ++
    "s with " ++ ratStr (duty_cycle * 100) ++ "% duty cycle."

/-- The loop of `Piezo.do_command` (src/main.py lines 112-134), threading
the hardware oracle through the entries in insertion order.  `res` is the
accumulated result dict. -/
def doCommandGo (pin : String) (ok : ℕ → Option String) :
    List (String × Args) → List (String × String) →
    List (String × String) × List Event
  | [], res => (res, [])
  | (name, args) :: rest, res =>
    if name = "sound_buzzer" then
      let f := argGet args "frequency" 1000
      let d := argGet args "duration" 1
      let c := argGet args "duty_cycle" (1/2)
      let r := sound_buzzer pin ok f d c none
      let res2 := dictSet res "sound_buzzer" (buzzerActivatedMsg f d c)
      let rec2 := doCommandGo pin (shiftOracle ok (numCalls r.2)) rest res2
      (rec2.1, r.2 ++ rec2.2)
    else if name = "play_harry_potter" then
      let r := play_harry_potter pin ok
      let res2 := dictSet res "play_harry_potter" "Played Harry Potter theme song."
      let rec2 := doCommandGo pin (shiftOracle ok (numCalls r.2)) rest res2
      (rec2.1, r.2 ++ rec2.2)
    else
      doCommandGo pin ok rest (dictSet res name ("Unknown command: " ++ name))

/-- Embedding of `Piezo.do_command` (src/main.py lines 102-137): the
command dict is a list of (name, args) entries in insertion order;
`timeout` is the accepted-but-unused keyword argument. -/
def do_command (pin : String) (ok : ℕ → Option String)
    (command : List (String × Args)) (timeout : Option ℚ) :
    List (String × String) × List Event :=
  doCommandGo pin ok command []

/-- Model of a protobuf `Value` as it occurs in `config.attributes.fields`
(the `kind` oneof; `HasField("string_value")` holds exactly for
`stringValue`). -/
inductive PBValue where
  | stringValue (s : String)
  | numberValue (q : ℚ)
  | boolValue (b : Bool)
  | nullValue
  deriving DecidableEq, Repr

/-- Python `str.isdigit`: true iff the string is non-empty and every
character is a digit. -/
def pyIsdigit (s : String) : Bool :=
  !s.data.isEmpty && s.data.all Char.isDigit

/-- Exception message raised for a malformed `piezo_pin` attribute. -/
def pinCfgMsg : String :=
  "Piezo pin must be configured as a numeric string (digits only)."

/-- Exception message raised for a malformed `board` attribute. -/
def boardCfgMsg : String :=
  "Board name must be configured as a string."

/-- Embedding of `Piezo.validate_config` (src/main.py lines 27-42) on the
attribute fields mapping.  `Except.error` is the raised exception (an
invalid-config failure); `Except.ok []` is the returned empty dependency
list. -/
def validate_config (fields : List (String × PBValue)) :
    Except String (List String) :=
  match
    (match List.lookup "piezo_pin" fields with
     | some (PBValue.stringValue s) =>
         if pyIsdigit s then Except.ok () else Except.error pinCfgMsg
     | some _ => Except.error pinCfgMsg
     | none => Except.ok ())
  with
  | Except.error e => Except.error e
  | Except.ok _ =>
    match List.lookup "board" fields with
    | some (PBValue.stringValue _) => Except.ok []
    | some _ => Except.error boardCfgMsg
    | none => Except.ok []

/-- A resolved dependency as found in the `dependencies` mapping: either a
`Board` capability (the `isinstance(self.board, Board)` check succeeds) or
some other resource. -/
inductive Resource where
  | board (id : ℕ)
  | other (id : ℕ)
  deriving DecidableEq, Repr

/-- Does `isinstance(r, Board)` hold? -/
def Resource.isBoard : Resource → Bool
  | .board _ => true
  | .other _ => false

/-- `Board.get_resource_name(name)`: the fully-qualified resource name a
board dependency is registered under. -/
def boardResourceName (name : String) : String :=
  "rdk:component:board/" ++ name

/-- Embedding of `Piezo.reconfigure` (src/main.py lines 44-61) for a
configuration whose `board` attribute is the string `boardName`.
`pinAttr` is `attrs.get("piezo_pin")`.  On success the stored
`(self.pin, self.board)` pair is returned; the raised exception (board
dependency absent under the derived resource name, or present but not a
`Board`) makes reconfiguration fail, so the component does not become
ready. -/
def reconfigure (pinAttr : Option String) (boardName : String)
    (deps : List (String × Resource)) :
    Except String (Option String × Resource) :=
  let rn := boardResourceName boardName
  match List.lookup rn deps with
  | some r =>
      if r.isBoard then Except.ok (pinAttr, r)
      else Except.error ("Board '" ++ rn ++ "' not found during reconfiguration.")
  | none => Except.error ("Board '" ++ rn ++ "' not found during reconfiguration.")

/-- Did an `Except` computation fail? -/
def isError {ε α : Type} : Except ε α → Bool
  | .error _ => true
  | .ok _ => false

/-- Is a protobuf value a string (`HasField("string_value")`)? -/
def pbIsString : PBValue → Bool
  | .stringValue _ => true
  | _ => false

/-- The spec's wording for a valid `piezo_pin` attribute: "a string of
digits only" — a string value that consists of digits (non-empty, which is
what Python's `str.isdigit` tests). -/
def numericStringVal (v : PBValue) : Prop :=
  ∃ s, v = PBValue.stringValue s ∧ s.data ≠ [] ∧ ∀ ch ∈ s.data, ch.isDigit = true

/-- A board on which every hardware call fails with a fixed message. -/
def failBoard : ℕ → Option String := fun _ => some "pin not found"

/-- A board on which the first three hardware calls succeed and every
later one fails: in a `sound_buzzer` run, the final `set_pwm(0.0)` is the
failing call. -/
def lastCallFails : ℕ → Option String :=
  fun k => if k < 3 then none else some "board disconnected"

end Piezo

namespace Piezo

/-! ## Helper lemmas (shared) -/

theorem rat_floor_eq_int_floor (q : ℚ) : Rat.floor q = ⌊q⌋ := rfl

theorem pyInt_of_nonneg (q : ℚ) (h : 0 ≤ q) : pyInt q = ⌊q⌋ := by
  unfold pyInt
  rw [if_neg (not_lt.2 h), rat_floor_eq_int_floor]

theorem pyInt_unit_interval (q : ℚ) (h0 : 0 < q) (h1 : q < 1) : pyInt q = 0 := by
  rw [pyInt_of_nonneg q h0.le]
  exact Int.floor_eq_zero_iff.2 ⟨h0.le, by exact_mod_cast h1⟩

theorem firstMatches_append (n l r : List Char) (h : firstMatches n l = true) :
    firstMatches n (l ++ r) = true := by
  induction n generalizing l with
  | nil => rfl
  | cons a as ih =>
    cases l with
    | nil => simp [firstMatches] at h
    | cons b bs =>
      simp only [List.cons_append, firstMatches, Bool.and_eq_true] at h ⊢
      exact ⟨h.1, ih bs h.2⟩

theorem hasSub_append_left (n l r : List Char) (h : hasSub n l = true) :
    hasSub n (l ++ r) = true := by
  induction l with
  | nil =>
    cases n with
    | nil =>
      cases r with
      | nil => rfl
      | cons b bs => simp [hasSub, firstMatches]
    | cons a as => simp [hasSub, firstMatches] at h
  | cons b bs ih =>
    simp only [List.cons_append, hasSub, Bool.or_eq_true] at h ⊢
    rcases h with h | h
    · exact Or.inl (firstMatches_append n (b :: bs) r h)
    · exact Or.inr (ih h)

theorem strContains_append_left (s t needle : String)
    (h : strContains s needle = true) : strContains (s ++ t) needle = true := by
  unfold strContains at h ⊢
  rw [String.data_append]
  exact hasSub_append_left needle.data s.data t.data h

/-- Shared success-path computation of `sound_buzzer` on an all-accepting
board (used by the C1 and C10 theorems). -/
theorem sb_valid_allOk (pin : String) (f d c : ℚ) (t : Option ℚ)
    (hf : 0 < f) (hd : 0 < d) (hc0 : 0 ≤ c) (hc1 : c ≤ 1) :
    sound_buzzer pin allOk f d c t =
      ("Buzzer sounded successfully.",
       [.call (.gpioPinByName pin) true, .call (.setPwmFrequency (pyInt f)) true,
        .call (.setPwm c) true, .sleep d, .call (.setPwm 0) true]) := by
  have hf' : ¬ f ≤ 0 := not_le.2 hf
  have hd' : ¬ d ≤ 0 := not_le.2 hd
  simp [sound_buzzer, allOk, hf', hd', hc0, hc1]

theorem pyInt_thousand : pyInt 1000 = 1000 := by decide

/-! ## Claim theorems -/

/-- C1: for every valid input triple (frequency > 0, duration > 0,
0 ≤ dutyCycle ≤ 1) on a board that accepts every call, `sound_buzzer`
issues exactly the hardware-call sequence: acquire the pin by the stored
pin name, `set_pwm_frequency` of the truncated frequency, `set_pwm`
of the duty cycle, a wait of the duration, `set_pwm(0.0)`, and returns
the string "Buzzer sounded successfully.". -/
theorem sound_buzzer_valid_sequence (pin : String) (f d c : ℚ)
    (hf : 0 < f) (hd : 0 < d) (hc0 : 0 ≤ c) (hc1 : c ≤ 1) :
    sound_buzzer pin allOk f d c none =
      ("Buzzer sounded successfully.",
       [.call (.gpioPinByName pin) true, .call (.setPwmFrequency (pyInt f)) true,
        .call (.setPwm c) true, .sleep d, .call (.setPwm 0) true]) :=
  sb_valid_allOk pin f d c none hf hd hc0 hc1

/-- Witness for C1: the claim's own triple frequency = 1000,
duration = 0.01, dutyCycle = 0.5, with the truncated frequency
evaluated to the integer 1000. -/
theorem sound_buzzer_valid_sequence_w :
    sound_buzzer "12" allOk 1000 (1/100) (1/2) none =
      ("Buzzer sounded successfully.",
       [.call (.gpioPinByName "12") true, .call (.setPwmFrequency 1000) true,
        .call (.setPwm (1/2)) true, .sleep (1/100), .call (.setPwm 0) true]) := by
  have h := sound_buzzer_valid_sequence "12" 1000 (1/100) (1/2)
    (by norm_num) (by norm_num) (by norm_num) (by norm_num)
  rw [h, pyInt_thousand]

/-- C2 (amended): `sound_buzzer` performs no hardware call and returns an
error string naming the violated constraint, where the constraints are
checked in source order: a non-positive frequency always yields a
"Frequency" message; a non-positive duration yields a "Duration" message
provided the frequency was positive; an out-of-range duty cycle yields a
"Duty cycle" message provided frequency and duration were positive.  In
every case the function returns a string (the raised `ValueError` is
caught inside the method), so no exception escapes. -/
theorem sound_buzzer_validation_errors (pin : String) (ok : ℕ → Option String)
    (f d c : ℚ) (t : Option ℚ) :
    (f ≤ 0 →
       (sound_buzzer pin ok f d c t).2 = [] ∧
       strContains (sound_buzzer pin ok f d c t).1 "Frequency" = true) ∧
    (0 < f → d ≤ 0 →
       (sound_buzzer pin ok f d c t).2 = [] ∧
       strContains (sound_buzzer pin ok f d c t).1 "Duration" = true) ∧
    (0 < f → 0 < d → ¬ (0 ≤ c ∧ c ≤ 1) →
       (sound_buzzer pin ok f d c t).2 = [] ∧
       strContains (sound_buzzer pin ok f d c t).1 "Duty cycle" = true) := by
  refine ⟨fun hf => ⟨?_, ?_⟩, fun hf hd => ⟨?_, ?_⟩, fun hf hd hc => ⟨?_, ?_⟩⟩
  · simp [sound_buzzer, hf]
  · simp only [sound_buzzer, if_pos hf, sbErr]
    rw [← String.append_assoc]
    exact strContains_append_left _ _ _ (by decide)
  · simp [sound_buzzer, not_le.2 hf, hd]
  · simp only [sound_buzzer, if_neg (not_le.2 hf), if_pos hd, sbErr]
    rw [← String.append_assoc]
    exact strContains_append_left _ _ _ (by decide)
  · simp [sound_buzzer, not_le.2 hf, not_le.2 hd, hc]
  · simp only [sound_buzzer, if_neg (not_le.2 hf), if_neg (not_le.2 hd),
      if_pos hc, sbErr]
    rw [← String.append_assoc]
    exact strContains_append_left _ _ _ (by decide)

/-- Counterexample for C2 as stated: with frequency = -1 and
duration = -1 the duration is non-positive, yet the result message names
the frequency and does not contain "Duration" (the checks run in source
order and the frequency check fires first). -/
theorem sound_buzzer_validation_errors_cex :
    (-1 : ℚ) ≤ 0 ∧
    strContains (sound_buzzer "12" allOk (-1) (-1) (1/2) none).1 "Duration" = false := by
  constructor
  · norm_num
  · decide

/-- Witness for C2: an out-of-range duty cycle (2) with valid frequency
and duration yields a "Duty cycle" error and an empty trace. -/
theorem sound_buzzer_validation_errors_w :
    (sound_buzzer "12" allOk 1 1 2 none).2 = [] ∧
    strContains (sound_buzzer "12" allOk 1 1 2 none).1 "Duty cycle" = true :=
  (sound_buzzer_validation_errors "12" allOk 1 1 2 none).2.2
    (by norm_num) (by norm_num) (by norm_num)

/-- C3: on a board that accepts every call, `play_harry_potter` acquires
the pin once and then issues exactly 22 note cycles, in the fixed order of
the hardcoded melody and rhythm tables, where cycle i emits
`set_pwm_frequency(int(melody[i]))`, `set_pwm(0.5)`, a wait of
`rhythm[i]` seconds, `set_pwm(0.0)`, and a wait of 0.1 seconds. -/
theorem play_harry_potter_cycles (pin : String) :
    play_harry_potter pin allOk =
      (none, .call (.gpioPinByName pin) true ::
        ((melody.zip rhythm).flatMap fun p =>
          [.call (.setPwmFrequency (pyInt p.1)) true, .call (.setPwm (1/2)) true,
           .sleep p.2, .call (.setPwm 0) true, .sleep (1/10)])) ∧
    (melody.zip rhythm).length = 22 ∧ melody.length = 22 ∧ rhythm.length = 22 :=
  ⟨rfl, rfl, rfl, rfl⟩

/-- C4 (amended): for a command mapping with key "sound_buzzer",
`do_command` extracts frequency (default 1000), duration (default 1.0)
and duty_cycle (default 0.5) from the entry's argument mapping and invokes
`sound_buzzer` with them (the trace is exactly `sound_buzzer`'s trace),
but it records under key "sound_buzzer" the formatted "Buzzer activated"
string unconditionally: the string `sound_buzzer` returns — success or
error — is discarded, and since `sound_buzzer` catches every exception,
the recording `except` branch is never taken for a mapping argument. -/
theorem do_command_sound_buzzer_records (pin : String) (ok : ℕ → Option String)
    (args : Args) (t : Option ℚ) :
    do_command pin ok [("sound_buzzer", args)] t =
      ([("sound_buzzer", buzzerActivatedMsg (argGet args "frequency" 1000)
          (argGet args "duration" 1) (argGet args "duty_cycle" (1/2)))],
       (sound_buzzer pin ok (argGet args "frequency" 1000)
          (argGet args "duration" 1) (argGet args "duty_cycle" (1/2)) none).2) := by
  simp [do_command, doCommandGo, dictSet]

/-- Counterexample for C4 as stated: on a board whose pin lookup fails,
`sound_buzzer` fails (returns the error string "Error in sound_buzzer:
pin not found"), yet `do_command` records the formatted success string,
which does not contain "Error", under key "sound_buzzer". -/
theorem do_command_sound_buzzer_records_cex :
    (sound_buzzer "12" failBoard 1000 1 (1/2) none).1 = sbErr "pin not found" ∧
    strContains (sbErr "pin not found") "Error" = true ∧
    (do_command "12" failBoard [("sound_buzzer", [])] none).1 =
      [("sound_buzzer", buzzerActivatedMsg 1000 1 (1/2))] ∧
    strContains (buzzerActivatedMsg 1000 1 (1/2)) "Error" = false := by
  refine ⟨?_, by decide, ?_, ?_⟩
  · simp [sound_buzzer, failBoard]
    norm_num
  · simp [do_command, doCommandGo, dictSet, argGet, List.lookup]
  · have h : (1/2 : ℚ) * 100 = 50 := by norm_num
    rw [buzzerActivatedMsg, h]
    decide

/-- C5: when a hardware call of `sound_buzzer` fails after validation
passed, the failure is caught and an error-message string is returned (no
exception escapes), the failing call is the last event of the trace (no
further hardware call is issued), and — for a failure of the final
`set_pwm(0.0)` with the tone on (duty cycle > 0) — no successful
silencing `set_pwm(0.0)` occurs anywhere in the run: there is no
compensating rollback. -/
theorem sound_buzzer_failure_no_rollback (pin msg : String)
    (ok : ℕ → Option String) (f d c : ℚ)
    (hf : 0 < f) (hd : 0 < d) (hc0 : 0 ≤ c) (hc1 : c ≤ 1) :
    (ok 0 = some msg →
       sound_buzzer pin ok f d c none =
         (sbErr msg, [.call (.gpioPinByName pin) false])) ∧
    (ok 0 = none → ok 1 = some msg →
       sound_buzzer pin ok f d c none =
         (sbErr msg, [.call (.gpioPinByName pin) true,
                      .call (.setPwmFrequency (pyInt f)) false])) ∧
    (ok 0 = none → ok 1 = none → ok 2 = some msg →
       sound_buzzer pin ok f d c none =
         (sbErr msg, [.call (.gpioPinByName pin) true,
                      .call (.setPwmFrequency (pyInt f)) true,
                      .call (.setPwm c) false])) ∧
    (ok 0 = none → ok 1 = none → ok 2 = none → ok 3 = some msg →
       sound_buzzer pin ok f d c none =
         (sbErr msg, [.call (.gpioPinByName pin) true,
                      .call (.setPwmFrequency (pyInt f)) true,
                      .call (.setPwm c) true, .sleep d,
                      .call (.setPwm 0) false]) ∧
       (0 < c →
         (sound_buzzer pin ok f d c none).2.all (fun e => !silencingEvent e) = true)) := by
  have hf' : ¬ f ≤ 0 := not_le.2 hf
  have hd' : ¬ d ≤ 0 := not_le.2 hd
  refine ⟨fun h0 => ?_, fun h0 h1 => ?_, fun h0 h1 h2 => ?_, fun h0 h1 h2 h3 => ?_⟩
  · simp [sound_buzzer, hf', hd', hc0, hc1, h0]
  · simp [sound_buzzer, hf', hd', hc0, hc1, h0, h1]
  · simp [sound_buzzer, hf', hd', hc0, hc1, h0, h1, h2]
  · have htr : sound_buzzer pin ok f d c none =
        (sbErr msg, [.call (.gpioPinByName pin) true,
                     .call (.setPwmFrequency (pyInt f)) true,
                     .call (.setPwm c) true, .sleep d,
                     .call (.setPwm 0) false]) := by
      simp [sound_buzzer, hf', hd', hc0, hc1, h0, h1, h2, h3]
    refine ⟨htr, fun hcpos => ?_⟩
    rw [htr]
    simp [silencingEvent, hcpos.ne']

/-- Witness for C5: a board that disconnects at the fourth call makes the
final `set_pwm(0.0)` fail; the buzzer stays on (no successful silencing
event in the trace) and the error string is returned. -/
theorem sound_buzzer_failure_no_rollback_w :
    sound_buzzer "12" lastCallFails 1000 1 (1/2) none =
      (sbErr "board disconnected",
       [.call (.gpioPinByName "12") true, .call (.setPwmFrequency 1000) true,
        .call (.setPwm (1/2)) true, .sleep 1, .call (.setPwm 0) false]) ∧
    (sound_buzzer "12" lastCallFails 1000 1 (1/2) none).2.all
      (fun e => !silencingEvent e) = true := by
  have h := (sound_buzzer_failure_no_rollback "12" "board disconnected"
    lastCallFails 1000 1 (1/2) (by norm_num) (by norm_num) (by norm_num)
    (by norm_num)).2.2.2 rfl rfl rfl rfl
  refine ⟨?_, h.2 (by norm_num)⟩
  rw [h.1, pyInt_thousand]

/-- Characterisation of Python's `str.isdigit` used by `validate_config`. -/
theorem pyIsdigit_iff (s : String) :
    pyIsdigit s = true ↔ s.data ≠ [] ∧ ∀ ch ∈ s.data, ch.isDigit = true := by
  simp [pyIsdigit, List.all_eq_true, List.isEmpty_iff]

/-- C6: configuration validation fails exactly when a present `piezo_pin`
attribute is not a digits-only string (a string value consisting of
digits, per `str.isdigit`), or a present `board` attribute is not a
string; in particular `piezo_pin = "12a"` fails with the invalid-config
exception and `piezo_pin = "12"` succeeds. -/
theorem validate_config_characterisation (fields : List (String × PBValue)) :
    (isError (validate_config fields) = true ↔
      (∃ v, List.lookup "piezo_pin" fields = some v ∧ ¬ numericStringVal v) ∨
      (∃ v, List.lookup "board" fields = some v ∧ pbIsString v = false)) ∧
    validate_config [("piezo_pin", PBValue.stringValue "12a")] =
      Except.error pinCfgMsg ∧
    validate_config [("piezo_pin", PBValue.stringValue "12")] = Except.ok [] := by
  refine ⟨?_, by rfl, by rfl⟩
  cases hp : List.lookup "piezo_pin" fields with
  | none =>
    cases hb : List.lookup "board" fields with
    | none => simp [validate_config, hp, hb, isError]
    | some bv =>
      cases bv <;> simp [validate_config, hp, hb, isError, pbIsString, numericStringVal]
  | some v =>
    cases v with
    | stringValue s =>
      by_cases hdig : pyIsdigit s = true
      · obtain ⟨hne, hall⟩ := (pyIsdigit_iff s).1 hdig
        cases hb : List.lookup "board" fields with
        | none =>
          simp [validate_config, hp, hb, isError, hdig, hne, numericStringVal]
          exact hall
        | some bv =>
          cases bv <;>
            simp [validate_config, hp, hb, isError, hdig, hne, pbIsString,
              numericStringVal] <;>
            exact hall
      · have hnnum : ¬ numericStringVal (PBValue.stringValue s) := by
          intro h
          rcases h with ⟨s2, he, hs⟩
          cases he
          exact hdig ((pyIsdigit_iff s).2 hs)
        simp [validate_config, hp, isError, hdig, hnnum]
    | numberValue q => simp [validate_config, hp, isError, numericStringVal]
    | boolValue b => simp [validate_config, hp, isError, numericStringVal]
    | nullValue => simp [validate_config, hp, isError, numericStringVal]

/-- Witness for C6: a `board` attribute holding a number (not a string)
makes validation fail. -/
theorem validate_config_characterisation_w :
    isError (validate_config [("board", PBValue.numberValue 3)]) = true :=
  (validate_config_characterisation [("board", PBValue.numberValue 3)]).1.mpr
    (Or.inr ⟨PBValue.numberValue 3, rfl, rfl⟩)

/-- C7: reconfiguration looks the board up in the dependencies mapping
under the resource name derived from the configured board attribute; when
that entry is absent or is not a `Board`, reconfiguration fails with the
dependency-unresolved exception (so the component does not become ready);
otherwise the resolved board and the configured pin are stored. -/
theorem reconfigure_dependency_resolution (pinAttr : Option String)
    (boardName : String) (deps : List (String × Resource)) :
    (∀ r, List.lookup (boardResourceName boardName) deps = some r →
       r.isBoard = true →
       reconfigure pinAttr boardName deps = Except.ok (pinAttr, r)) ∧
    ((List.lookup (boardResourceName boardName) deps = none ∨
      ∃ r, List.lookup (boardResourceName boardName) deps = some r ∧
        r.isBoard = false) →
      isError (reconfigure pinAttr boardName deps) = true) := by
  constructor
  · intro r hl hb
    simp [reconfigure, hl, hb]
  · rintro (hl | ⟨r, hl, hb⟩)
    · simp [reconfigure, hl, isError]
    · simp [reconfigure, hl, hb, isError]

/-- Witness for C7: a dependencies mapping holding a board under the
derived resource name makes reconfiguration succeed and store the pin and
the board. -/
theorem reconfigure_dependency_resolution_w :
    reconfigure (some "12") "board-1"
      [("rdk:component:board/board-1", Resource.board 0)] =
      Except.ok (some "12", Resource.board 0) :=
  (reconfigure_dependency_resolution (some "12") "board-1"
    [("rdk:component:board/board-1", Resource.board 0)]).1
    (Resource.board 0) rfl rfl

/-- C8: for a command key that is neither "sound_buzzer" nor
"play_harry_potter", `do_command` records "Unknown command: <key>" under
that same key and performs no hardware interaction; in particular
`do_command` on `{"foo": {}}` returns `{"foo": "Unknown command: foo"}`
with an empty trace. -/
theorem do_command_unknown_command (pin : String) (ok : ℕ → Option String)
    (name : String) (args : Args) (t : Option ℚ) :
    (name ≠ "sound_buzzer" → name ≠ "play_harry_potter" →
       do_command pin ok [(name, args)] t =
         ([(name, "Unknown command: " ++ name)], [])) ∧
    do_command "12" allOk [("foo", [])] none =
      ([("foo", "Unknown command: foo")], []) := by
  constructor
  · intro h1 h2
    simp [do_command, doCommandGo, h1, h2, dictSet]
  · decide

/-- Witness for C8: the key "foo". -/
theorem do_command_unknown_command_w :
    do_command "12" allOk [("foo", [])] none =
      ([("foo", "Unknown command: foo")], []) :=
  (do_command_unknown_command "12" allOk "foo" [] none).1
    (by decide) (by decide)

/-- C9: the caller-supplied timeout parameter of `sound_buzzer` and of
`do_command` has no effect: for any two timeout values and identical
remaining inputs and board behaviour, the two runs produce the same
result and the same trace (calls and waits); the wait is never bounded by
the timeout. -/
theorem timeout_ignored (pin : String) (ok : ℕ → Option String) (f d c : ℚ)
    (command : List (String × Args)) (t1 t2 : Option ℚ) :
    sound_buzzer pin ok f d c t1 = sound_buzzer pin ok f d c t2 ∧
    do_command pin ok command t1 = do_command pin ok command t2 :=
  ⟨rfl, rfl⟩

/-- C10: for every frequency strictly between 0 and 1, validation accepts
the call and the truncation to an integer yields 0, so
`set_pwm_frequency(0)` is issued to the hardware even though validation
nominally requires a positive frequency. -/
theorem sound_buzzer_fractional_frequency (pin : String) (f d c : ℚ)
    (hf0 : 0 < f) (hf1 : f < 1) (hd : 0 < d) (hc0 : 0 ≤ c) (hc1 : c ≤ 1) :
    sound_buzzer pin allOk f d c none =
      ("Buzzer sounded successfully.",
       [.call (.gpioPinByName pin) true, .call (.setPwmFrequency 0) true,
        .call (.setPwm c) true, .sleep d, .call (.setPwm 0) true]) := by
  have h := sb_valid_allOk pin f d c none hf0 hd hc0 hc1
  rw [h, pyInt_unit_interval f hf0 hf1]

/-- Witness for C10: frequency 0.5 passes validation and the board is
sent `set_pwm_frequency(0)`. -/
theorem sound_buzzer_fractional_frequency_w :
    sound_buzzer "12" allOk (1/2) 1 (1/2) none =
      ("Buzzer sounded successfully.",
       [.call (.gpioPinByName "12") true, .call (.setPwmFrequency 0) true,
        .call (.setPwm (1/2)) true, .sleep 1, .call (.setPwm 0) true]) :=
  sound_buzzer_fractional_frequency "12" (1/2) 1 (1/2)
    (by norm_num) (by norm_num) (by norm_num) (by norm_num) (by norm_num)

end Piezo
